import Mathlib

/-!
Verification of the DWRF flush-policy engine
(`velox/dwio/dwrf/writer/FlushPolicy.h`).

The header declares four concrete policies behind the `DWRFFlushPolicy`
contract.  The inline method bodies in the header are embedded directly.
Bodies that live in `FlushPolicy.cpp` (the `DefaultFlushPolicy`
constructor and its two `shouldFlushDictionary` overloads,
`getDictionaryAssessmentIncrement`, and the `RowsPerStripeFlushPolicy`
constructor and `shouldFlush`) are not part of the sources; those
definitions are modelled from the specification and are marked as such
in their doc comments.

Machine integers: `uint64_t` quantities (sizes, row counts, thresholds)
are modelled as `Nat`; all arithmetic performed by the embedded code is
comparison plus a single addition on the assessment cursor, modelled
without wraparound per the specification's abstract description.
`int64_t dictionaryMemoryUsage` is modelled as `Int`.
-/

namespace Velox.Dwrf

/-- The four-way outcome of a dictionary-related flush decision
(`enum class FlushDecision` in the header). -/
inductive FlushDecision where
  | SKIP
  | EVALUATE_DICTIONARY
  | FLUSH_DICTIONARY
  | ABANDON_DICTIONARY
deriving DecidableEq, Repr

/-- Progress snapshot consumed by the policies.  Modelled from the spec:
`dwio::common::StripeProgress` is declared outside this header; the spec
gives it the shape `{ stripeSizeEstimate: bytes, stripeRowCount: count }`. -/
structure StripeProgress where
  stripeSizeEstimate : Nat
  stripeRowCount : Nat
deriving DecidableEq, Repr

/-- Writer context read by the dictionary decision.  Modelled from the spec:
`WriterContext` is declared outside this header; the spec says it exposes the
current dictionary memory usage and a memory budget, read-only. -/
structure WriterContext where
  dictionaryMemoryUsage : Nat
  memoryBudget : Nat
deriving DecidableEq, Repr

/-- Construction-time configuration faults.  The spec prescribes
construction-time validation; faulting constructors are modelled as
`Except ConfigError` producers. -/
inductive ConfigError where
  | nonPositiveStripeSizeThreshold
  | nonPositiveDictionarySizeThreshold
  | emptyRowsPerStripe
deriving DecidableEq, Repr

/-- Boolean success test for a modelled constructor result. -/
def constructionSucceeds {α : Type} : Except ConfigError α → Bool
  | .ok _ => true
  | .error _ => false

/-! ## DefaultFlushPolicy (threshold-based policy)

Fields of the C++ class: `stripeSizeThreshold_` and
`dictionarySizeThreshold_` are `const`; `dictionaryAssessmentThreshold_`
is the mutable assessment cursor. -/

structure DefaultFlushPolicy where
  stripeSizeThreshold_ : Nat
  dictionarySizeThreshold_ : Nat
  dictionaryAssessmentThreshold_ : Nat
deriving DecidableEq, Repr

/-- Modelled from the spec: the body of
`DefaultFlushPolicy::getDictionaryAssessmentIncrement` lives in
`FlushPolicy.cpp`, which is not among the sources.  The spec (§4.2, §9)
describes the increment as the stripe-size threshold divided into a small
fixed number of equal checkpoints and recommends one quarter; we model
the increment as `stripeSizeThreshold_ / 4`. -/
def DefaultFlushPolicy.getDictionaryAssessmentIncrement
    (p : DefaultFlushPolicy) : Nat :=
  p.stripeSizeThreshold_ / 4

/-- Modelled from the spec: the body of the `DefaultFlushPolicy`
constructor lives in `FlushPolicy.cpp`, which is not among the sources.
Per spec §7 the size and memory thresholds must be strictly positive and
violations are configuration faults at construction; per spec §3 the
assessment cursor starts at its initial value, modelled as the first
evenly spaced checkpoint (one increment). -/
def DefaultFlushPolicy.construct (stripeSizeThreshold : Nat)
    (dictionarySizeThreshold : Nat) : Except ConfigError DefaultFlushPolicy :=
  if stripeSizeThreshold = 0 then
    .error .nonPositiveStripeSizeThreshold
  else if dictionarySizeThreshold = 0 then
    .error .nonPositiveDictionarySizeThreshold
  else
    .ok { stripeSizeThreshold_ := stripeSizeThreshold
          dictionarySizeThreshold_ := dictionarySizeThreshold
          dictionaryAssessmentThreshold_ := stripeSizeThreshold / 4 }

/-- Inline in the header (lines 59–62):
`return stripeProgress.stripeSizeEstimate >= stripeSizeThreshold_;`. -/
def DefaultFlushPolicy.shouldFlush (p : DefaultFlushPolicy)
    (stripeProgress : StripeProgress) : Bool :=
  stripeProgress.stripeSizeEstimate ≥ p.stripeSizeThreshold_

/-- Modelled from the spec: the body of the primitive overload of
`DefaultFlushPolicy::shouldFlushDictionary` (taking the dictionary memory
usage directly) lives in `FlushPolicy.cpp`, which is not among the
sources.  Per spec §4.2: flushing the stripe yields `FLUSH_DICTIONARY`;
else memory pressure yields `ABANDON_DICTIONARY`; else crossing the
assessment cursor advances it by the fixed increment and yields
`EVALUATE_DICTIONARY`; else `SKIP`.  The mutation of the cursor is made
explicit by returning the updated policy alongside the decision. -/
def DefaultFlushPolicy.shouldFlushDictionaryPrimitive
    (p : DefaultFlushPolicy) (flushStripe : Bool) (overMemoryBudget : Bool)
    (stripeProgress : StripeProgress) (dictionaryMemoryUsage : Int) :
    FlushDecision × DefaultFlushPolicy :=
  if flushStripe then
    (.FLUSH_DICTIONARY, p)
  else if overMemoryBudget then
    (.ABANDON_DICTIONARY, p)
  else if stripeProgress.stripeSizeEstimate ≥ p.dictionaryAssessmentThreshold_ then
    (.EVALUATE_DICTIONARY,
      { p with dictionaryAssessmentThreshold_ :=
          p.dictionaryAssessmentThreshold_ + p.getDictionaryAssessmentIncrement })
  else
    (.SKIP, p)

/-- Modelled from the spec: the body of the context overload of
`DefaultFlushPolicy::shouldFlushDictionary` lives in `FlushPolicy.cpp`,
which is not among the sources.  Per spec §4.2 it derives
`overMemoryBudget` by comparing the context's current dictionary memory
usage against the dictionary-memory threshold (the spec's end-to-end
scenario reads this as the usage exceeding the threshold) and delegates
to the primitive form. -/
def DefaultFlushPolicy.shouldFlushDictionary (p : DefaultFlushPolicy)
    (flushStripe : Bool) (overMemoryBudget : Bool)
    (stripeProgress : StripeProgress) (context : WriterContext) :
    FlushDecision × DefaultFlushPolicy :=
  p.shouldFlushDictionaryPrimitive flushStripe
    (overMemoryBudget || decide (context.dictionaryMemoryUsage > p.dictionarySizeThreshold_))
    stripeProgress (Int.ofNat context.dictionaryMemoryUsage)

/-- Inline in the header (line 76): `void onClose() override {}` — a
no-op touching no state and raising no fault. -/
def DefaultFlushPolicy.onClose (p : DefaultFlushPolicy) : DefaultFlushPolicy :=
  p

/-! ## RowsPerStripeFlushPolicy (row-sequence policy) -/

structure RowsPerStripeFlushPolicy where
  rowsPerStripe_ : List Nat
deriving DecidableEq, Repr

/-- Modelled from the spec: the body of the `RowsPerStripeFlushPolicy`
constructor lives in `FlushPolicy.cpp`, which is not among the sources.
Per spec §7 an empty sequence is a configuration fault raised at
construction. -/
def RowsPerStripeFlushPolicy.construct (rowsPerStripe : List Nat) :
    Except ConfigError RowsPerStripeFlushPolicy :=
  if rowsPerStripe.isEmpty then
    .error .emptyRowsPerStripe
  else
    .ok { rowsPerStripe_ := rowsPerStripe }

/-- Modelled from the spec: the body of
`RowsPerStripeFlushPolicy::shouldFlush` lives in `FlushPolicy.cpp`,
which is not among the sources.  Per spec §4.3 it compares the current
stripe row count against the sequence entry at the current cursor
position and, on trigger, advances the cursor for the next stripe
(spec §3: one value consumed per stripe via a monotonically advancing
index); per spec §9's recommendation, an exhausted plan clamps to the
last configured entry.  The cursor mutation is made explicit by
returning the updated cursor alongside the decision. -/
def RowsPerStripeFlushPolicy.shouldFlush (p : RowsPerStripeFlushPolicy)
    (cursor : Nat) (stripeProgress : StripeProgress) : Bool × Nat :=
  let target :=
    p.rowsPerStripe_.getD (min cursor (p.rowsPerStripe_.length - 1)) 0
  if stripeProgress.stripeRowCount ≥ target then
    (true, cursor + 1)
  else
    (false, cursor)

/-- Inline in the header (lines 94–100): unconditionally
`return FlushDecision::SKIP;`. -/
def RowsPerStripeFlushPolicy.shouldFlushDictionary
    (p : RowsPerStripeFlushPolicy) (flushStripe : Bool)
    (overMemoryBudget : Bool) (stripeProgress : StripeProgress)
    (context : WriterContext) : FlushDecision :=
  .SKIP

/-- Inline in the header (line 102): `void onClose() override {}`. -/
def RowsPerStripeFlushPolicy.onClose (p : RowsPerStripeFlushPolicy) :
    RowsPerStripeFlushPolicy :=
  p

/-! ## RowThresholdFlushPolicy (fixed row-count-threshold policy) -/

structure RowThresholdFlushPolicy where
  rowCountThreshold_ : Nat
deriving DecidableEq, Repr

/-- Inline in the header (lines 110–111): the constructor is
`: rowCountThreshold_{rowCountThreshold} {}` — it stores the threshold
and performs no validation, so it never faults. -/
def RowThresholdFlushPolicy.construct (rowCountThreshold : Nat) :
    RowThresholdFlushPolicy :=
  { rowCountThreshold_ := rowCountThreshold }

/-- Inline in the header (lines 115–118):
`return stripeProgress.stripeRowCount >= rowCountThreshold_;`. -/
def RowThresholdFlushPolicy.shouldFlush (p : RowThresholdFlushPolicy)
    (stripeProgress : StripeProgress) : Bool :=
  stripeProgress.stripeRowCount ≥ p.rowCountThreshold_

/-- Inline in the header (lines 120–126): unconditionally
`return FlushDecision::SKIP;`. -/
def RowThresholdFlushPolicy.shouldFlushDictionary
    (p : RowThresholdFlushPolicy) (flushStripe : Bool)
    (overMemoryBudget : Bool) (stripeProgress : StripeProgress)
    (context : WriterContext) : FlushDecision :=
  .SKIP

/-- Inline in the header (line 128): `void onClose() override {}`. -/
def RowThresholdFlushPolicy.onClose (p : RowThresholdFlushPolicy) :
    RowThresholdFlushPolicy :=
  p

/-! ## LambdaFlushPolicy (predicate-based policy)

The stored `std::function<bool()>` is an arbitrary stateful, possibly
faulting callable; it is embedded as a function from its private state
`σ` to `Except ε (Bool × σ)`: one application is one invocation, an
`Except.error` outcome is a fault raised inside the callable. -/

structure LambdaFlushPolicy (ε σ : Type) where
  lambda_ : σ → Except ε (Bool × σ)

/-- Inline in the header (lines 140–142): `return lambda_();` — the
snapshot is ignored and the callable is invoked exactly once; its result
(or fault) is returned unchanged. -/
def LambdaFlushPolicy.shouldFlush {ε σ : Type} (p : LambdaFlushPolicy ε σ)
    (stripeProgress : StripeProgress) (s : σ) : Except ε (Bool × σ) :=
  p.lambda_ s

/-- Inline in the header (lines 144–150): unconditionally
`return FlushDecision::SKIP;`. -/
def LambdaFlushPolicy.shouldFlushDictionary {ε σ : Type}
    (p : LambdaFlushPolicy ε σ) (flushStripe : Bool)
    (overMemoryBudget : Bool) (stripeProgress : StripeProgress)
    (context : WriterContext) : FlushDecision :=
  .SKIP

/-- Inline in the header (line 152): `void onClose() override {}`. -/
def LambdaFlushPolicy.onClose {ε σ : Type} (p : LambdaFlushPolicy ε σ) :
    LambdaFlushPolicy ε σ :=
  p

/-- A concrete stateful callable for the predicate-based policy: it
returns `true` on its first invocation and `false` on every later one
(its private state counts invocations).  A `std::function<bool()>` with a
captured counter behaves this way. -/
def firstCallOnlyLambda : LambdaFlushPolicy Unit Nat :=
  { lambda_ := fun n => .ok (n == 0, n + 1) }

/-! ## Theorems -/

/-- C1: for the threshold-based (default) policy, `shouldFlushDictionary`
(primitive form) follows the exact precedence: `flushStripe` yields
`FLUSH_DICTIONARY`; otherwise `overMemoryBudget` yields
`ABANDON_DICTIONARY`; otherwise a stripe-size estimate at or past the
assessment cursor advances the cursor by the fixed increment and yields
`EVALUATE_DICTIONARY`; otherwise `SKIP` with the cursor unchanged. -/
theorem shouldFlushDictionary_precedence (p : DefaultFlushPolicy)
    (fs omb : Bool) (prog : StripeProgress) (u : Int) :
    ((p.shouldFlushDictionaryPrimitive fs omb prog u).1 = .FLUSH_DICTIONARY
        ↔ fs = true) ∧
    ((p.shouldFlushDictionaryPrimitive fs omb prog u).1 = .ABANDON_DICTIONARY
        ↔ fs = false ∧ omb = true) ∧
    ((p.shouldFlushDictionaryPrimitive fs omb prog u).1 = .EVALUATE_DICTIONARY
        ↔ fs = false ∧ omb = false ∧
          p.dictionaryAssessmentThreshold_ ≤ prog.stripeSizeEstimate) ∧
    ((p.shouldFlushDictionaryPrimitive fs omb prog u).1 = .SKIP
        ↔ fs = false ∧ omb = false ∧
          prog.stripeSizeEstimate < p.dictionaryAssessmentThreshold_) ∧
    ((p.shouldFlushDictionaryPrimitive fs omb prog u).2.dictionaryAssessmentThreshold_
        = if (p.shouldFlushDictionaryPrimitive fs omb prog u).1
              = .EVALUATE_DICTIONARY
          then p.dictionaryAssessmentThreshold_ + p.getDictionaryAssessmentIncrement
          else p.dictionaryAssessmentThreshold_) ∧
    ((p.shouldFlushDictionaryPrimitive fs omb prog u).2.stripeSizeThreshold_
        = p.stripeSizeThreshold_) ∧
    ((p.shouldFlushDictionaryPrimitive fs omb prog u).2.dictionarySizeThreshold_
        = p.dictionarySizeThreshold_) := by
  cases fs <;> cases omb <;>
    by_cases h : p.dictionaryAssessmentThreshold_ ≤ prog.stripeSizeEstimate <;>
    simp [DefaultFlushPolicy.shouldFlushDictionaryPrimitive, h] <;> omega

/-- C2: for the threshold-based (default) policy with stripe-size
threshold `T`, `shouldFlush` returns true exactly when the snapshot's
stripe-size estimate is at least `T`. -/
theorem shouldFlush_iff_size_threshold (p : DefaultFlushPolicy)
    (prog : StripeProgress) :
    p.shouldFlush prog = true ↔ p.stripeSizeThreshold_ ≤ prog.stripeSizeEstimate := by
  simp [DefaultFlushPolicy.shouldFlush]

/-- C7: for the fixed row-count-threshold policy with threshold `R`,
`shouldFlush` returns true exactly when the snapshot's stripe row count
is at least `R`. -/
theorem shouldFlush_iff_row_threshold (p : RowThresholdFlushPolicy)
    (prog : StripeProgress) :
    p.shouldFlush prog = true ↔ p.rowCountThreshold_ ≤ prog.stripeRowCount := by
  simp [RowThresholdFlushPolicy.shouldFlush]

/-- C8: for the predicate-based policy, `shouldFlush` is exactly one
invocation of the stored callable on its private state — so any fault
(`Except.error`) the callable raises is returned unchanged — and the
result is independent of the snapshot's contents. -/
theorem lambda_shouldFlush_is_one_invocation {ε σ : Type}
    (p : LambdaFlushPolicy ε σ) (s : σ) (prog prog2 : StripeProgress) :
    p.shouldFlush prog s = p.lambda_ s ∧
    p.shouldFlush prog s = p.shouldFlush prog2 s :=
  ⟨rfl, rfl⟩

/-- C9: `onClose` leaves every policy variant exactly as it is — it
never faults (it is a total function) and is idempotent: a second call
has no further effect. -/
theorem onClose_identity_and_idempotent {ε σ : Type}
    (p : DefaultFlushPolicy) (q : RowsPerStripeFlushPolicy)
    (r : RowThresholdFlushPolicy) (l : LambdaFlushPolicy ε σ) :
    (p.onClose = p ∧ p.onClose.onClose = p.onClose) ∧
    (q.onClose = q ∧ q.onClose.onClose = q.onClose) ∧
    (r.onClose = r ∧ r.onClose.onClose = r.onClose) ∧
    (l.onClose = l ∧ l.onClose.onClose = l.onClose) :=
  ⟨⟨rfl, rfl⟩, ⟨rfl, rfl⟩, ⟨rfl, rfl⟩, ⟨rfl, rfl⟩⟩

/-- C10: two-run noninterference.  The threshold-based policy's
`shouldFlush` depends only on the snapshot's stripe-size estimate and the
configured size threshold (not on the rest of the snapshot nor on the
policy's dictionary threshold or assessment cursor), and the fixed
row-threshold policy's `shouldFlush` depends only on the stripe row count
and the configured row threshold. -/
theorem shouldFlush_noninterference
    (p q : DefaultFlushPolicy) (r s : RowThresholdFlushPolicy)
    (a b c d : StripeProgress)
    (hT : p.stripeSizeThreshold_ = q.stripeSizeThreshold_)
    (ha : a.stripeSizeEstimate = b.stripeSizeEstimate)
    (hR : r.rowCountThreshold_ = s.rowCountThreshold_)
    (hc : c.stripeRowCount = d.stripeRowCount) :
    p.shouldFlush a = q.shouldFlush b ∧ r.shouldFlush c = s.shouldFlush d := by
  constructor
  · simp [DefaultFlushPolicy.shouldFlush, hT, ha]
  · simp [RowThresholdFlushPolicy.shouldFlush, hR, hc]

/-- Witness for C10 at concrete inputs: two default policies sharing
threshold 1000 but with different dictionary thresholds and cursors, on
two snapshots sharing size 600; two row-threshold policies with
threshold 100 on two snapshots sharing row count 42. -/
theorem shouldFlush_noninterference_witness :
    (DefaultFlushPolicy.mk 1000 500 250).shouldFlush ⟨600, 5⟩
        = (DefaultFlushPolicy.mk 1000 900 750).shouldFlush ⟨600, 99⟩ ∧
    (RowThresholdFlushPolicy.mk 100).shouldFlush ⟨777, 42⟩
        = (RowThresholdFlushPolicy.mk 100).shouldFlush ⟨888, 42⟩ :=
  shouldFlush_noninterference
    (DefaultFlushPolicy.mk 1000 500 250) (DefaultFlushPolicy.mk 1000 900 750)
    (RowThresholdFlushPolicy.mk 100) (RowThresholdFlushPolicy.mk 100)
    ⟨600, 5⟩ ⟨600, 99⟩ ⟨777, 42⟩ ⟨888, 42⟩ rfl rfl rfl rfl

/-- C3 counterexample: two policy variants can flip-flop on snapshots
whose fields are monotonically non-decreasing within one stripe.  The
predicate-based policy with the callable `firstCallOnlyLambda` returns
true on the first `shouldFlush` call and false on the next; the
row-sequence policy constructed from the plan `[10, 20]` triggers at 10
rows (advancing its cursor), then answers false at 11 rows of the same
stripe because the cursor now points at the entry 20.  Either trace
refutes the claim's "every concrete policy variant". -/
theorem shouldFlush_can_flip_flop :
    (StripeProgress.mk 100 10).stripeSizeEstimate
        ≤ (StripeProgress.mk 120 11).stripeSizeEstimate ∧
    (StripeProgress.mk 100 10).stripeRowCount
        ≤ (StripeProgress.mk 120 11).stripeRowCount ∧
    firstCallOnlyLambda.shouldFlush ⟨100, 10⟩ 0 = .ok (true, 1) ∧
    firstCallOnlyLambda.shouldFlush ⟨120, 11⟩ 1 = .ok (false, 2) ∧
    RowsPerStripeFlushPolicy.construct [10, 20]
        = .ok (RowsPerStripeFlushPolicy.mk [10, 20]) ∧
    (RowsPerStripeFlushPolicy.mk [10, 20]).shouldFlush 0 ⟨100, 10⟩
        = (true, 1) ∧
    (RowsPerStripeFlushPolicy.mk [10, 20]).shouldFlush 1 ⟨120, 11⟩
        = (false, 1) :=
  ⟨by decide, by decide, rfl, rfl, rfl, rfl, rfl⟩

/-- C3 amended: for the threshold-based and fixed row-threshold
policies, `shouldFlush` is monotone: once it returns true on a snapshot,
it returns true on every snapshot with fields at least as large, so it
never flips back within a stripe.  The guarantee does not extend to the
predicate-based policy, which returns whatever the callable returns and
so flips whenever the callable does, nor to the row-sequence policy,
whose cursor advance on trigger makes a later monotone snapshot compare
against a larger plan entry — both demonstrated concretely by the
counterexample above. -/
theorem shouldFlush_monotone_threshold_policies
    (p : DefaultFlushPolicy) (r : RowThresholdFlushPolicy)
    (a b c d : StripeProgress)
    (hab1 : a.stripeSizeEstimate ≤ b.stripeSizeEstimate)
    (hab2 : a.stripeRowCount ≤ b.stripeRowCount)
    (hcd1 : c.stripeSizeEstimate ≤ d.stripeSizeEstimate)
    (hcd2 : c.stripeRowCount ≤ d.stripeRowCount)
    (h1 : p.shouldFlush a = true) (h2 : r.shouldFlush c = true) :
    p.shouldFlush b = true ∧ r.shouldFlush d = true := by
  simp [DefaultFlushPolicy.shouldFlush, RowThresholdFlushPolicy.shouldFlush] at *
  omega

/-- Witness for the amended C3: a default policy with threshold 1000
flushing at size 1000 keeps flushing at size 1500; a row-threshold
policy with threshold 100 flushing at 100 rows keeps flushing at 200. -/
theorem shouldFlush_monotone_threshold_policies_witness :
    (DefaultFlushPolicy.mk 1000 500 250).shouldFlush ⟨1500, 20⟩ = true ∧
    (RowThresholdFlushPolicy.mk 100).shouldFlush ⟨5, 200⟩ = true :=
  shouldFlush_monotone_threshold_policies
    (DefaultFlushPolicy.mk 1000 500 250) (RowThresholdFlushPolicy.mk 100)
    ⟨1000, 10⟩ ⟨1500, 20⟩ ⟨0, 100⟩ ⟨5, 200⟩
    (by decide) (by decide) (by decide) (by decide) (by decide) (by decide)

/-- C4 counterexample: the fixed row-threshold policy's
`shouldFlushDictionary` returns `SKIP`, not `FLUSH_DICTIONARY`, even
with `flushStripe = true`, refuting the claim for that variant (the
row-sequence and predicate-based variants behave the same way). -/
theorem rowThreshold_flushStripe_still_skips :
    (RowThresholdFlushPolicy.construct 100).shouldFlushDictionary
        true true ⟨0, 0⟩ ⟨0, 0⟩ = .SKIP ∧
    FlushDecision.SKIP ≠ FlushDecision.FLUSH_DICTIONARY :=
  ⟨rfl, by decide⟩

/-- C4 amended: `shouldFlushDictionary` with `flushStripe = true`
returns `FLUSH_DICTIONARY` regardless of the other arguments for the
threshold-based (default) policy, in both its primitive and context
forms; the row-sequence, fixed row-threshold, and predicate-based
variants return `SKIP` for every argument combination, including
`flushStripe = true`. -/
theorem flushStripe_true_behaviour {ε σ : Type}
    (p : DefaultFlushPolicy) (q : RowsPerStripeFlushPolicy)
    (r : RowThresholdFlushPolicy) (l : LambdaFlushPolicy ε σ)
    (fs omb : Bool) (prog : StripeProgress) (u : Int)
    (ctx : WriterContext) :
    (p.shouldFlushDictionaryPrimitive true omb prog u).1 = .FLUSH_DICTIONARY ∧
    (p.shouldFlushDictionary true omb prog ctx).1 = .FLUSH_DICTIONARY ∧
    q.shouldFlushDictionary fs omb prog ctx = .SKIP ∧
    r.shouldFlushDictionary fs omb prog ctx = .SKIP ∧
    l.shouldFlushDictionary fs omb prog ctx = .SKIP :=
  ⟨rfl, rfl, rfl, rfl, rfl⟩

/-- C5 counterexample: with the default policy constructed from
`T = 1000, D = 500` (assessment cursor initially 250, increment 250),
two successive `shouldFlushDictionary` calls in the same stripe with the
same stripe-size estimate 600 both return `EVALUATE_DICTIONARY`: the
first advances the cursor only to 500, which 600 still exceeds. -/
theorem same_size_can_evaluate_twice :
    DefaultFlushPolicy.construct 1000 500
        = .ok (DefaultFlushPolicy.mk 1000 500 250) ∧
    ((DefaultFlushPolicy.mk 1000 500 250).shouldFlushDictionaryPrimitive
        false false ⟨600, 5⟩ 0).1 = .EVALUATE_DICTIONARY ∧
    ((DefaultFlushPolicy.mk 1000 500 250).shouldFlushDictionaryPrimitive
        false false ⟨600, 5⟩ 0).2 = DefaultFlushPolicy.mk 1000 500 500 ∧
    ((DefaultFlushPolicy.mk 1000 500 500).shouldFlushDictionaryPrimitive
        false false ⟨600, 5⟩ 0).1 = .EVALUATE_DICTIONARY :=
  ⟨rfl, rfl, rfl, rfl⟩

/-- C5 amended: the assessment cursor is monotonically non-decreasing
across every `shouldFlushDictionary` call, and every call returning
`EVALUATE_DICTIONARY` advances it by exactly the fixed increment — but a
second call at the same stripe-size estimate can still return
`EVALUATE_DICTIONARY` when that estimate is at least one increment past
the old cursor. -/
theorem assessment_cursor_monotone (p : DefaultFlushPolicy)
    (fs omb fs2 omb2 : Bool) (prog prog2 : StripeProgress) (u u2 : Int)
    (h : (p.shouldFlushDictionaryPrimitive fs2 omb2 prog2 u2).1
        = .EVALUATE_DICTIONARY) :
    p.dictionaryAssessmentThreshold_
        ≤ (p.shouldFlushDictionaryPrimitive fs omb prog u).2.dictionaryAssessmentThreshold_ ∧
    (p.shouldFlushDictionaryPrimitive fs2 omb2 prog2 u2).2.dictionaryAssessmentThreshold_
        = p.dictionaryAssessmentThreshold_ + p.getDictionaryAssessmentIncrement := by
  constructor
  · cases fs <;> cases omb <;>
      by_cases h3 : prog.stripeSizeEstimate ≥ p.dictionaryAssessmentThreshold_ <;>
      simp [DefaultFlushPolicy.shouldFlushDictionaryPrimitive, h3]
  · revert h
    cases fs2 <;> cases omb2 <;>
      by_cases h3 : prog2.stripeSizeEstimate ≥ p.dictionaryAssessmentThreshold_ <;>
      simp [DefaultFlushPolicy.shouldFlushDictionaryPrimitive, h3]

/-- Witness for the amended C5 at the counterexample's inputs: the call
at size 600 returns `EVALUATE_DICTIONARY`, the cursor does not decrease
on an unrelated call, and the evaluating call advances it to 500. -/
theorem assessment_cursor_monotone_witness :
    (250 : Nat)
        ≤ ((DefaultFlushPolicy.mk 1000 500 250).shouldFlushDictionaryPrimitive
            true true ⟨0, 0⟩ 0).2.dictionaryAssessmentThreshold_ ∧
    ((DefaultFlushPolicy.mk 1000 500 250).shouldFlushDictionaryPrimitive
        false false ⟨600, 5⟩ 0).2.dictionaryAssessmentThreshold_
        = 250 + (DefaultFlushPolicy.mk 1000 500 250).getDictionaryAssessmentIncrement :=
  assessment_cursor_monotone (DefaultFlushPolicy.mk 1000 500 250)
    true true false false ⟨0, 0⟩ ⟨600, 5⟩ 0 0 (by decide)

/-- C6 counterexample: the fixed row-threshold constructor is inline in
the header and performs no validation, so constructing it with the
non-positive threshold 0 succeeds and yields a usable policy (its
`shouldFlush` immediately answers true), refuting the claim that such
constructions fail. -/
theorem rowThreshold_construct_accepts_zero :
    (RowThresholdFlushPolicy.construct 0).rowCountThreshold_ = 0 ∧
    (RowThresholdFlushPolicy.construct 0).shouldFlush ⟨0, 0⟩ = true :=
  ⟨rfl, rfl⟩

/-- C6 amended: the default policy's constructor rejects a zero size or
dictionary-memory threshold and accepts strictly positive ones, and the
row-sequence constructor rejects exactly the empty sequence (both bodies
modelled from the spec); the fixed row-threshold constructor, inline in
the header, performs no validation and accepts any threshold, zero
included. -/
theorem construction_validation (t d r : Nat) (rows : List Nat)
    (ht : 0 < t) (hd : 0 < d) (hrows : rows ≠ []) :
    constructionSucceeds (DefaultFlushPolicy.construct 0 d) = false ∧
    constructionSucceeds (DefaultFlushPolicy.construct t 0) = false ∧
    constructionSucceeds (DefaultFlushPolicy.construct t d) = true ∧
    constructionSucceeds (RowsPerStripeFlushPolicy.construct []) = false ∧
    constructionSucceeds (RowsPerStripeFlushPolicy.construct rows) = true ∧
    (RowThresholdFlushPolicy.construct r).rowCountThreshold_ = r := by
  refine ⟨rfl, ?_, ?_, rfl, ?_, rfl⟩
  · simp [DefaultFlushPolicy.construct, constructionSucceeds, ht.ne']
  · simp [DefaultFlushPolicy.construct, constructionSucceeds, ht.ne', hd.ne']
  · cases rows with
    | nil => exact absurd rfl hrows
    | cons a l => rfl

/-- Witness for the amended C6 with `T = 1000, D = 500`, row threshold
0, and plan `[10, 20, 30]`. -/
theorem construction_validation_witness :
    constructionSucceeds (DefaultFlushPolicy.construct 0 500) = false ∧
    constructionSucceeds (DefaultFlushPolicy.construct 1000 0) = false ∧
    constructionSucceeds (DefaultFlushPolicy.construct 1000 500) = true ∧
    constructionSucceeds (RowsPerStripeFlushPolicy.construct []) = false ∧
    constructionSucceeds (RowsPerStripeFlushPolicy.construct [10, 20, 30]) = true ∧
    (RowThresholdFlushPolicy.construct 0).rowCountThreshold_ = 0 :=
  construction_validation 1000 500 0 [10, 20, 30]
    (by decide) (by decide) (by decide)

end Velox.Dwrf
